import Mathlib

/-!
# MachinePlugin of the KubeVirt machine provider

A shallow embedding of `pkg/kubevirt/machine_server.go`: the five lifecycle
operations of `MachinePlugin`, which decode the request configuration, delegate
to the injected session provider interface (SPI) and normalise the result.

Conventions of the embedding

* A Go result `(value, err)` of a callee (the decoder, an SPI method) is an
  `Except StatusError value`: the plugin reads the value only when `err == nil`.
* A Go result `(*Response, error)` of a plugin operation is kept as the pair
  `Option Response × Option StatusError`, since `GetVolumeIDs` returns a
  non-nil response together with a non-nil error.
* The SPI works against a backend of state `σ`. A `World` pairs that state
  with the log of the SPI invocations made so far; invoking an SPI method
  runs it on the backend and appends one record to the log.
* The `klog` statements have no effect on results and are left out.
-/

namespace Kubevirt

/-- Status codes of `machinecodes/codes`. -/
inductive Code where
  | OK
  | Canceled
  | Unknown
  | InvalidArgument
  | DeadlineExceeded
  | NotFound
  | AlreadyExists
  | PermissionDenied
  | ResourceExhausted
  | FailedPrecondition
  | Aborted
  | OutOfRange
  | Unimplemented
  | Internal
  | Unavailable
  | DataLoss
  | Unauthenticated
  deriving DecidableEq, Repr

/-- Modelled from the spec: the Go `error` values this layer handles. The
error type and its classification are declared outside `machine_server.go`;
the spec describes an error as "a result type carrying an explicit error kind
(invalid-argument, not-found, unimplemented, internal) plus a message". -/
structure StatusError where
  code : Code
  msg : String
  deriving DecidableEq, Repr

/-- The call `status.Error(c, msg)` of `machinecodes/status`. -/
def statusError (c : Code) (msg : String) : StatusError :=
  { code := c, msg := msg }

/-- Modelled from the spec: `wrapf`, a helper of the package that is defined
outside `machine_server.go`. The spec: backend failures are "wrapped with
operation and machine-name context but with the original failure's
classification preserved"; "wrapping must add context without discarding the
original kind". The context comes first and the original message follows it. -/
def wrapf (err : StatusError) (context : String) : StatusError :=
  { code := err.code, msg := context ++ ": " ++ err.msg }

/-- Stand-in for `context.Context`, which the plugin only hands on to the SPI. -/
structure Context where
  token : Nat
  deriving DecidableEq, Repr

/-- Stand-in for `corev1.Secret`: its data entries. -/
structure Secret where
  data : List (String × String)
  deriving DecidableEq, Repr

/-- Stand-in for `v1alpha1.MachineClass`: its name and raw provider spec. -/
structure MachineClass where
  Name : String
  ProviderSpec : String
  deriving DecidableEq, Repr

/-- The part of `v1alpha1.MachineSpec` the plugin reads. -/
structure MachineSpec where
  ProviderID : String
  deriving DecidableEq, Repr

/-- The part of `v1alpha1.Machine` the plugin reads. -/
structure Machine where
  Name : String
  Spec : MachineSpec
  deriving DecidableEq, Repr

/-- The decoded provider spec; its fields are opaque to the plugin. -/
structure ProviderSpec where
  fields : List (String × String)
  deriving DecidableEq, Repr

/-- Stand-in for `corev1.PersistentVolumeSpec`. -/
structure PersistentVolumeSpec where
  raw : String
  deriving DecidableEq, Repr

structure CreateMachineRequest where
  Machine : Machine
  MachineClass : MachineClass
  Secret : Secret
  deriving DecidableEq, Repr

structure CreateMachineResponse where
  ProviderID : String
  NodeName : String
  LastKnownState : String
  deriving DecidableEq, Repr

structure DeleteMachineRequest where
  Machine : Machine
  MachineClass : MachineClass
  Secret : Secret
  deriving DecidableEq, Repr

structure DeleteMachineResponse where
  LastKnownState : String
  deriving DecidableEq, Repr

structure GetMachineStatusRequest where
  Machine : Machine
  MachineClass : MachineClass
  Secret : Secret
  deriving DecidableEq, Repr

structure GetMachineStatusResponse where
  ProviderID : String
  NodeName : String
  deriving DecidableEq, Repr

structure ListMachinesRequest where
  MachineClass : MachineClass
  Secret : Secret
  deriving DecidableEq, Repr

/-- The Go map `MachineList` (provider ID to machine name) is kept as the list
of its pairs; the plugin hands it on without looking inside. -/
structure ListMachinesResponse where
  MachineList : List (String × String)
  deriving DecidableEq, Repr

structure GetVolumeIDsRequest where
  PVSpecs : List PersistentVolumeSpec
  deriving DecidableEq, Repr

/-- The zero value `driver.GetVolumeIDsResponse{}` has a nil `VolumeIDs`. -/
structure GetVolumeIDsResponse where
  VolumeIDs : List String
  deriving DecidableEq, Repr

/-- What `machine_server.go` uses from outside the plugin and the SPI:
`decodeProviderSpecAndSecret` (defined elsewhere in the package) and the `%q`
verb of Go's `fmt`, which renders a string as a quoted Go string literal. -/
structure Externals where
  decodeProviderSpecAndSecret : MachineClass → Secret → Except StatusError ProviderSpec
  quote : String → String

/-- The session provider interface, over a backend of state `σ`. -/
structure SPI (σ : Type) where
  CreateMachine : Context → String → ProviderSpec → Secret → σ →
    Except StatusError String × σ
  DeleteMachine : Context → String → String → ProviderSpec → Secret → σ →
    Except StatusError String × σ
  GetMachineStatus : Context → String → String → ProviderSpec → Secret → σ →
    Except StatusError String × σ
  ListMachines : Context → ProviderSpec → Secret → σ →
    Except StatusError (List (String × String)) × σ

/-- One invocation of an SPI method, with the arguments it received. -/
inductive SPICall where
  | CreateMachine (ctx : Context) (machineName : String) (spec : ProviderSpec)
      (secret : Secret)
  | DeleteMachine (ctx : Context) (machineName providerID : String)
      (spec : ProviderSpec) (secret : Secret)
  | GetMachineStatus (ctx : Context) (machineName providerID : String)
      (spec : ProviderSpec) (secret : Secret)
  | ListMachines (ctx : Context) (spec : ProviderSpec) (secret : Secret)
  deriving DecidableEq, Repr

/-- The backend together with the log of SPI invocations, oldest first. -/
structure World (σ : Type) where
  backend : σ
  calls : List SPICall

/-- The SPI invocations made between the world `before` and the world `after`. -/
def invocations {σ : Type} (before after : World σ) : List SPICall :=
  after.calls.drop before.calls.length

/-- The call `p.SPI.CreateMachine(ctx, name, spec, secret)`. -/
def SPI.invokeCreateMachine {σ : Type} (spi : SPI σ) (ctx : Context) (machineName : String)
    (spec : ProviderSpec) (secret : Secret) (w : World σ) :
    Except StatusError String × World σ :=
  let r := spi.CreateMachine ctx machineName spec secret w.backend
  (r.1, { backend := r.2,
          calls := w.calls ++ [SPICall.CreateMachine ctx machineName spec secret] })

/-- The call `p.SPI.DeleteMachine(ctx, name, providerID, spec, secret)`. -/
def SPI.invokeDeleteMachine {σ : Type} (spi : SPI σ) (ctx : Context)
    (machineName providerID : String) (spec : ProviderSpec) (secret : Secret) (w : World σ) :
    Except StatusError String × World σ :=
  let r := spi.DeleteMachine ctx machineName providerID spec secret w.backend
  (r.1, { backend := r.2,
          calls := w.calls ++ [SPICall.DeleteMachine ctx machineName providerID spec secret] })

/-- The call `p.SPI.GetMachineStatus(ctx, name, providerID, spec, secret)`. -/
def SPI.invokeGetMachineStatus {σ : Type} (spi : SPI σ) (ctx : Context)
    (machineName providerID : String) (spec : ProviderSpec) (secret : Secret) (w : World σ) :
    Except StatusError String × World σ :=
  let r := spi.GetMachineStatus ctx machineName providerID spec secret w.backend
  (r.1, { backend := r.2,
          calls := w.calls ++ [SPICall.GetMachineStatus ctx machineName providerID spec secret] })

/-- The call `p.SPI.ListMachines(ctx, spec, secret)`. -/
def SPI.invokeListMachines {σ : Type} (spi : SPI σ) (ctx : Context)
    (spec : ProviderSpec) (secret : Secret) (w : World σ) :
    Except StatusError (List (String × String)) × World σ :=
  let r := spi.ListMachines ctx spec secret w.backend
  (r.1, { backend := r.2, calls := w.calls ++ [SPICall.ListMachines ctx spec secret] })

/-- The plugin: it holds the SPI it delegates to. -/
structure MachinePlugin (σ : Type) where
  SPI : SPI σ

/-- `MachinePlugin.CreateMachine` (machine_server.go, lines 49-68). -/
def MachinePlugin.CreateMachine {σ : Type} (p : MachinePlugin σ) (x : Externals)
    (ctx : Context) (req : CreateMachineRequest) (w : World σ) :
    (Option CreateMachineResponse × Option StatusError) × World σ :=
  match x.decodeProviderSpecAndSecret req.MachineClass req.Secret with
  | .error err => ((none, some err), w)
  | .ok providerSpec =>
    match p.SPI.invokeCreateMachine ctx req.Machine.Name providerSpec req.Secret w with
    | (.error err, w1) =>
      ((none, some (wrapf err ("could not create machine " ++ x.quote req.Machine.Name))), w1)
    | (.ok providerID, w1) =>
      ((some { ProviderID := providerID,
               NodeName := req.Machine.Name,
               LastKnownState := "Created " ++ providerID }, none), w1)

/-- `MachinePlugin.DeleteMachine` (machine_server.go, lines 81-98). -/
def MachinePlugin.DeleteMachine {σ : Type} (p : MachinePlugin σ) (x : Externals)
    (ctx : Context) (req : DeleteMachineRequest) (w : World σ) :
    (Option DeleteMachineResponse × Option StatusError) × World σ :=
  match x.decodeProviderSpecAndSecret req.MachineClass req.Secret with
  | .error err => ((none, some err), w)
  | .ok providerSpec =>
    match p.SPI.invokeDeleteMachine ctx req.Machine.Name req.Machine.Spec.ProviderID
        providerSpec req.Secret w with
    | (.error err, w1) =>
      ((none, some (wrapf err ("could not delete machine " ++ x.quote req.Machine.Name))), w1)
    | (.ok providerID, w1) =>
      ((some { LastKnownState := "Deleted " ++ providerID }, none), w1)

/-- `MachinePlugin.GetMachineStatus` (machine_server.go, lines 116-136). -/
def MachinePlugin.GetMachineStatus {σ : Type} (p : MachinePlugin σ) (x : Externals)
    (ctx : Context) (req : GetMachineStatusRequest) (w : World σ) :
    (Option GetMachineStatusResponse × Option StatusError) × World σ :=
  match x.decodeProviderSpecAndSecret req.MachineClass req.Secret with
  | .error err => ((none, some err), w)
  | .ok providerSpec =>
    match p.SPI.invokeGetMachineStatus ctx req.Machine.Name req.Machine.Spec.ProviderID
        providerSpec req.Secret w with
    | (.error err, w1) =>
      ((none, some (wrapf err
        ("could not get status of machine " ++ x.quote req.Machine.Name))), w1)
    | (.ok providerID, w1) =>
      ((some { ProviderID := providerID, NodeName := req.Machine.Name }, none), w1)

/-- `MachinePlugin.ListMachines` (machine_server.go, lines 151-170). -/
def MachinePlugin.ListMachines {σ : Type} (p : MachinePlugin σ) (x : Externals)
    (ctx : Context) (req : ListMachinesRequest) (w : World σ) :
    (Option ListMachinesResponse × Option StatusError) × World σ :=
  match x.decodeProviderSpecAndSecret req.MachineClass req.Secret with
  | .error err => ((none, some err), w)
  | .ok providerSpec =>
    match p.SPI.invokeListMachines ctx providerSpec req.Secret w with
    | (.error err, w1) => ((none, some (wrapf err "could not list machines")), w1)
    | (.ok machineList, w1) => ((some { MachineList := machineList }, none), w1)

/-- `MachinePlugin.GetVolumeIDs` (machine_server.go, lines 180-185). -/
def MachinePlugin.GetVolumeIDs {σ : Type} (_p : MachinePlugin σ)
    (_ctx : Context) (_req : GetVolumeIDsRequest) (w : World σ) :
    (Option GetVolumeIDsResponse × Option StatusError) × World σ :=
  ((some { VolumeIDs := [] }, some (statusError Code.Unimplemented "")), w)

/-- The message `msg` contains the text `part`. -/
def mentions (msg part : String) : Prop :=
  part.data <:+: msg.data

instance (msg part : String) : Decidable (mentions msg part) := by
  unfold mentions
  infer_instance

/-! ## Test doubles used to exercise the statements on concrete inputs -/

/-- A decoder that rejects an empty raw provider spec and a `%q` that puts the
name between double quotes (what Go prints for a name of plain characters). -/
def sampleExternals : Externals where
  decodeProviderSpecAndSecret := fun mc _ =>
    if mc.ProviderSpec = "" then
      .error (statusError Code.InvalidArgument "provider spec is empty")
    else .ok { fields := [("raw", mc.ProviderSpec)] }
  quote := fun s => String.singleton (Char.ofNat 34) ++ s ++ String.singleton (Char.ofNat 34)

/-- An SPI over a store of (provider ID, machine name) records: creation is
idempotent per name, status and deletion report NotFound for an unknown name. -/
def storeSPI : SPI (List (String × String)) where
  CreateMachine := fun _ machineName _ _ vms =>
    match vms.find? (fun r => r.2 == machineName) with
    | some r => (.ok r.1, vms)
    | none =>
      (.ok ("kubevirt://" ++ machineName ++ "-abcd"),
        vms ++ [("kubevirt://" ++ machineName ++ "-abcd", machineName)])
  DeleteMachine := fun _ machineName _ _ _ vms =>
    match vms.find? (fun r => r.2 == machineName) with
    | some r => (.ok r.1, vms.filter (fun v => v.2 != machineName))
    | none => (.error (statusError Code.NotFound "machine not found"), vms)
  GetMachineStatus := fun _ machineName _ _ _ vms =>
    match vms.find? (fun r => r.2 == machineName) with
    | some r => (.ok r.1, vms)
    | none => (.error (statusError Code.NotFound "machine not found"), vms)
  ListMachines := fun _ _ _ vms => (.ok vms, vms)

/-- An SPI whose backend is unreachable: every method fails with Unavailable. -/
def unreachableSPI : SPI Unit where
  CreateMachine := fun _ _ _ _ u => (.error (statusError Code.Unavailable "backend unreachable"), u)
  DeleteMachine := fun _ _ _ _ _ u =>
    (.error (statusError Code.Unavailable "backend unreachable"), u)
  GetMachineStatus := fun _ _ _ _ _ u =>
    (.error (statusError Code.Unavailable "backend unreachable"), u)
  ListMachines := fun _ _ _ u => (.error (statusError Code.Unavailable "backend unreachable"), u)

/-- An SPI that numbers its answers: the n-th call of the backend answers with
the provider ID "vm-" followed by n, whatever the method. -/
def numberingSPI : SPI Nat where
  CreateMachine := fun _ _ _ _ n => (.ok ("vm-" ++ toString n), n + 1)
  DeleteMachine := fun _ _ _ _ _ n => (.ok ("vm-" ++ toString n), n + 1)
  GetMachineStatus := fun _ _ _ _ _ n => (.ok ("vm-" ++ toString n), n + 1)
  ListMachines := fun _ _ _ n => (.ok [("vm-" ++ toString n, "machine")], n + 1)

def storePlugin : MachinePlugin (List (String × String)) := { SPI := storeSPI }

def unreachablePlugin : MachinePlugin Unit := { SPI := unreachableSPI }

def numberingPlugin : MachinePlugin Nat := { SPI := numberingSPI }

def sampleContext : Context := { token := 0 }

def sampleSecret : Secret := { data := [("kubeconfig", "c2VjcmV0")] }

def validClass : MachineClass := { Name := "class-a", ProviderSpec := "region: eu" }

def malformedClass : MachineClass := { Name := "class-b", ProviderSpec := "" }

def validSpec : ProviderSpec := { fields := [("raw", "region: eu")] }

/-- The machine "vm-1", as the orchestrator holds it before creation. -/
def machineVm1 : Machine := { Name := "vm-1", Spec := { ProviderID := "" } }

/-- The machine "vm-1" once the orchestrator has stored the ID "vm-0" for it. -/
def numberedVm1 : Machine := { Name := "vm-1", Spec := { ProviderID := "vm-0" } }

/-- The machine "vm-1" with the provider ID the orchestrator stored for it. -/
def storedVm1 : Machine := { Name := "vm-1", Spec := { ProviderID := "kubevirt://vm-1-abcd" } }

/-- The error `sampleExternals` reports for an empty raw provider spec. -/
def emptySpecError : StatusError := statusError Code.InvalidArgument "provider spec is empty"

/-- The error `unreachableSPI` reports. -/
def unreachableError : StatusError := statusError Code.Unavailable "backend unreachable"

/-- The error `storeSPI` reports for an unknown machine name. -/
def notFoundError : StatusError := statusError Code.NotFound "machine not found"

def createVm1 : CreateMachineRequest :=
  { Machine := machineVm1, MachineClass := validClass, Secret := sampleSecret }

def deleteVm1 : DeleteMachineRequest :=
  { Machine := storedVm1, MachineClass := validClass, Secret := sampleSecret }

def statusVm1 : GetMachineStatusRequest :=
  { Machine := storedVm1, MachineClass := validClass, Secret := sampleSecret }

def statusNumberedVm1 : GetMachineStatusRequest :=
  { Machine := numberedVm1, MachineClass := validClass, Secret := sampleSecret }

def listValid : ListMachinesRequest := { MachineClass := validClass, Secret := sampleSecret }

def createMalformed : CreateMachineRequest :=
  { Machine := machineVm1, MachineClass := malformedClass, Secret := sampleSecret }

def deleteMalformed : DeleteMachineRequest :=
  { Machine := storedVm1, MachineClass := malformedClass, Secret := sampleSecret }

def statusMalformed : GetMachineStatusRequest :=
  { Machine := storedVm1, MachineClass := malformedClass, Secret := sampleSecret }

def listMalformed : ListMachinesRequest :=
  { MachineClass := malformedClass, Secret := sampleSecret }

def emptyStore : World (List (String × String)) := { backend := [], calls := [] }

def storeWithVm1 : World (List (String × String)) :=
  { backend := [("kubevirt://vm-1-abcd", "vm-1")], calls := [] }

def unreachableWorld : World Unit := { backend := (), calls := [] }

def numberingWorld : World Nat := { backend := 0, calls := [] }

/-! ## The world after a delegated call -/

theorem createMachine_world {σ : Type} (p : MachinePlugin σ) (x : Externals) (ctx : Context)
    (req : CreateMachineRequest) (w : World σ) (spec : ProviderSpec)
    (hdec : x.decodeProviderSpecAndSecret req.MachineClass req.Secret = .ok spec) :
    (p.CreateMachine x ctx req w).2 =
      { backend := (p.SPI.CreateMachine ctx req.Machine.Name spec req.Secret w.backend).2,
        calls := w.calls ++ [SPICall.CreateMachine ctx req.Machine.Name spec req.Secret] } := by
  rcases hr : p.SPI.CreateMachine ctx req.Machine.Name spec req.Secret w.backend with ⟨r, b⟩
  cases r <;> simp [MachinePlugin.CreateMachine, SPI.invokeCreateMachine, hdec, hr]

theorem deleteMachine_world {σ : Type} (p : MachinePlugin σ) (x : Externals) (ctx : Context)
    (req : DeleteMachineRequest) (w : World σ) (spec : ProviderSpec)
    (hdec : x.decodeProviderSpecAndSecret req.MachineClass req.Secret = .ok spec) :
    (p.DeleteMachine x ctx req w).2 =
      { backend := (p.SPI.DeleteMachine ctx req.Machine.Name req.Machine.Spec.ProviderID spec
          req.Secret w.backend).2,
        calls := w.calls ++ [SPICall.DeleteMachine ctx req.Machine.Name
          req.Machine.Spec.ProviderID spec req.Secret] } := by
  rcases hr : p.SPI.DeleteMachine ctx req.Machine.Name req.Machine.Spec.ProviderID spec
    req.Secret w.backend with ⟨r, b⟩
  cases r <;> simp [MachinePlugin.DeleteMachine, SPI.invokeDeleteMachine, hdec, hr]

theorem getMachineStatus_world {σ : Type} (p : MachinePlugin σ) (x : Externals)
    (ctx : Context) (req : GetMachineStatusRequest) (w : World σ) (spec : ProviderSpec)
    (hdec : x.decodeProviderSpecAndSecret req.MachineClass req.Secret = .ok spec) :
    (p.GetMachineStatus x ctx req w).2 =
      { backend := (p.SPI.GetMachineStatus ctx req.Machine.Name req.Machine.Spec.ProviderID
          spec req.Secret w.backend).2,
        calls := w.calls ++ [SPICall.GetMachineStatus ctx req.Machine.Name
          req.Machine.Spec.ProviderID spec req.Secret] } := by
  rcases hr : p.SPI.GetMachineStatus ctx req.Machine.Name req.Machine.Spec.ProviderID spec
    req.Secret w.backend with ⟨r, b⟩
  cases r <;> simp [MachinePlugin.GetMachineStatus, SPI.invokeGetMachineStatus, hdec, hr]

theorem listMachines_world {σ : Type} (p : MachinePlugin σ) (x : Externals) (ctx : Context)
    (req : ListMachinesRequest) (w : World σ) (spec : ProviderSpec)
    (hdec : x.decodeProviderSpecAndSecret req.MachineClass req.Secret = .ok spec) :
    (p.ListMachines x ctx req w).2 =
      { backend := (p.SPI.ListMachines ctx spec req.Secret w.backend).2,
        calls := w.calls ++ [SPICall.ListMachines ctx spec req.Secret] } := by
  rcases hr : p.SPI.ListMachines ctx spec req.Secret w.backend with ⟨r, b⟩
  cases r <;> simp [MachinePlugin.ListMachines, SPI.invokeListMachines, hdec, hr]

/-- Modelled wrapping keeps the classification of the wrapped error. -/
theorem wrapf_code (err : StatusError) (context : String) :
    (wrapf err context).code = err.code := rfl

/-- Modelled wrapping puts the context into the message. -/
theorem wrapf_mentions_context (err : StatusError) (context : String) :
    mentions (wrapf err context).msg context := by
  refine ⟨[], (": " ++ err.msg).data, ?_⟩
  simp [wrapf, String.append_assoc]

/-- Modelled wrapping keeps the message of the wrapped error. -/
theorem wrapf_mentions_original (err : StatusError) (context : String) :
    mentions (wrapf err context).msg err.msg := by
  refine ⟨(context ++ ": ").data, [], ?_⟩
  simp [wrapf]

/-- The log grown by one record shows exactly that record as the invocations made. -/
theorem invocations_append_one {σ : Type} (w : World σ) (b : σ) (c : SPICall) :
    invocations w { backend := b, calls := w.calls ++ [c] } = [c] := by
  simp [invocations]

/-- No invocation lies between a world and itself. -/
theorem invocations_self {σ : Type} (w : World σ) : invocations w w = [] := by
  simp [invocations]

/-! ## Successful delegation -/

/-- C1: when the request decodes and the SPI's CreateMachine returns the
provider ID `id` without error, CreateMachine returns no error and a response
with ProviderID `id`, NodeName the requested machine name and LastKnownState
"Created " followed by `id`. -/
theorem createMachine_success {σ : Type} (p : MachinePlugin σ) (x : Externals) (ctx : Context)
    (req : CreateMachineRequest) (w : World σ) (spec : ProviderSpec) (id : String) (b : σ)
    (hdec : x.decodeProviderSpecAndSecret req.MachineClass req.Secret = .ok spec)
    (hspi : p.SPI.CreateMachine ctx req.Machine.Name spec req.Secret w.backend = (.ok id, b)) :
    (p.CreateMachine x ctx req w).1 =
      (some { ProviderID := id, NodeName := req.Machine.Name,
              LastKnownState := "Created " ++ id }, none) := by
  simp [MachinePlugin.CreateMachine, SPI.invokeCreateMachine, hdec, hspi]

/-- The scenario of the spec: name "vm-1" and provider ID "kubevirt://vm-1-abcd". -/
theorem createMachine_success_witness :
    (storePlugin.CreateMachine sampleExternals sampleContext
        createVm1
        emptyStore).1 =
      (some { ProviderID := "kubevirt://vm-1-abcd", NodeName := "vm-1",
              LastKnownState := "Created kubevirt://vm-1-abcd" }, none) :=
  createMachine_success storePlugin sampleExternals sampleContext
    createVm1
    emptyStore validSpec "kubevirt://vm-1-abcd" [("kubevirt://vm-1-abcd", "vm-1")]
    rfl rfl

/-- C6: when the request decodes and the SPI's GetMachineStatus returns the
provider ID `id` without error, GetMachineStatus returns no error and a
response whose ProviderID is `id` itself (whatever ProviderID the request
stores) and whose NodeName is the requested machine name. -/
theorem getMachineStatus_success {σ : Type} (p : MachinePlugin σ) (x : Externals)
    (ctx : Context) (req : GetMachineStatusRequest) (w : World σ) (spec : ProviderSpec)
    (id : String) (b : σ)
    (hdec : x.decodeProviderSpecAndSecret req.MachineClass req.Secret = .ok spec)
    (hspi : p.SPI.GetMachineStatus ctx req.Machine.Name req.Machine.Spec.ProviderID spec
      req.Secret w.backend = (.ok id, b)) :
    (p.GetMachineStatus x ctx req w).1 =
      (some { ProviderID := id, NodeName := req.Machine.Name }, none) := by
  simp [MachinePlugin.GetMachineStatus, SPI.invokeGetMachineStatus, hdec, hspi]

/-- The request stores "kubevirt://vm-1-abcd", the SPI answers "vm-0": the
response carries "vm-0". -/
theorem getMachineStatus_success_witness :
    (numberingPlugin.GetMachineStatus sampleExternals sampleContext
        statusVm1
        numberingWorld).1 =
      (some { ProviderID := "vm-0", NodeName := "vm-1" }, none) :=
  getMachineStatus_success numberingPlugin sampleExternals sampleContext
    statusVm1
    numberingWorld validSpec "vm-0" 1 rfl rfl

/-- C7: when the request decodes and the SPI's ListMachines returns the mapping
`m` without error, ListMachines returns no error and a MachineList equal to
`m`: a pair is in the MachineList exactly when it is in `m`. -/
theorem listMachines_success {σ : Type} (p : MachinePlugin σ) (x : Externals)
    (ctx : Context) (req : ListMachinesRequest) (w : World σ) (spec : ProviderSpec)
    (m : List (String × String)) (b : σ)
    (hdec : x.decodeProviderSpecAndSecret req.MachineClass req.Secret = .ok spec)
    (hspi : p.SPI.ListMachines ctx spec req.Secret w.backend = (.ok m, b)) :
    ∃ resp : ListMachinesResponse,
      (p.ListMachines x ctx req w).1 = (some resp, none) ∧
      resp.MachineList = m ∧
      ∀ pair : String × String, pair ∈ resp.MachineList ↔ pair ∈ m := by
  refine ⟨{ MachineList := m }, ?_, rfl, fun _ => Iff.rfl⟩
  simp [MachinePlugin.ListMachines, SPI.invokeListMachines, hdec, hspi]

theorem listMachines_success_witness :
    ∃ resp : ListMachinesResponse,
      (storePlugin.ListMachines sampleExternals sampleContext
        listValid storeWithVm1).1 =
        (some resp, none) ∧
      resp.MachineList = [("kubevirt://vm-1-abcd", "vm-1")] ∧
      ∀ pair : String × String,
        pair ∈ resp.MachineList ↔ pair ∈ [("kubevirt://vm-1-abcd", "vm-1")] :=
  listMachines_success storePlugin sampleExternals sampleContext
    listValid storeWithVm1 validSpec
    [("kubevirt://vm-1-abcd", "vm-1")] [("kubevirt://vm-1-abcd", "vm-1")] rfl rfl

/-- C10: when the request decodes, DeleteMachine invokes the SPI's
DeleteMachine once, on the backend as it stands, with the request's machine
name, the ProviderID stored in the request's machine spec, the decoded
provider spec and the request's secret; and when the SPI returns the provider
ID `id` without error, DeleteMachine returns no error and a response with
LastKnownState "Deleted " followed by `id`. -/
theorem deleteMachine_delegates {σ : Type} (p : MachinePlugin σ) (x : Externals)
    (ctx : Context) (req : DeleteMachineRequest) (w : World σ) (spec : ProviderSpec)
    (hdec : x.decodeProviderSpecAndSecret req.MachineClass req.Secret = .ok spec) :
    invocations w (p.DeleteMachine x ctx req w).2 =
        [SPICall.DeleteMachine ctx req.Machine.Name req.Machine.Spec.ProviderID spec
          req.Secret] ∧
      (p.DeleteMachine x ctx req w).2.backend =
        (p.SPI.DeleteMachine ctx req.Machine.Name req.Machine.Spec.ProviderID spec
          req.Secret w.backend).2 ∧
      ∀ (id : String) (b : σ),
        p.SPI.DeleteMachine ctx req.Machine.Name req.Machine.Spec.ProviderID spec
            req.Secret w.backend = (.ok id, b) →
          (p.DeleteMachine x ctx req w).1 =
            (some { LastKnownState := "Deleted " ++ id }, none) := by
  refine ⟨?_, ?_, ?_⟩
  · rw [deleteMachine_world p x ctx req w spec hdec]
    exact invocations_append_one w _ _
  · rw [deleteMachine_world p x ctx req w spec hdec]
  · intro id b hspi
    simp [MachinePlugin.DeleteMachine, SPI.invokeDeleteMachine, hdec, hspi]

/-- The request stores "kubevirt://vm-1-abcd" and the SPI answers "vm-0". -/
theorem deleteMachine_delegates_witness :
    invocations numberingWorld
        (numberingPlugin.DeleteMachine sampleExternals sampleContext
          deleteVm1
          numberingWorld).2 =
        [SPICall.DeleteMachine sampleContext "vm-1" "kubevirt://vm-1-abcd" validSpec
          sampleSecret] ∧
      (numberingPlugin.DeleteMachine sampleExternals sampleContext
          deleteVm1
          numberingWorld).1 =
        (some { LastKnownState := "Deleted vm-0" }, none) :=
  ⟨(deleteMachine_delegates numberingPlugin sampleExternals sampleContext
      deleteVm1
      numberingWorld validSpec rfl).1,
   (deleteMachine_delegates numberingPlugin sampleExternals sampleContext
      deleteVm1
      numberingWorld validSpec rfl).2.2 "vm-0" 1 rfl⟩

/-! ## The unimplemented operation -/

/-- C3: for every request, GetVolumeIDs returns an error classified
Unimplemented together with a response whose volume IDs are empty; it makes no
SPI invocation, leaves the backend as it is, and never returns without error. -/
theorem getVolumeIDs_unimplemented {σ : Type} (p : MachinePlugin σ) (ctx : Context)
    (req : GetVolumeIDsRequest) (w : World σ) :
    (∃ (resp : GetVolumeIDsResponse) (err : StatusError),
      (p.GetVolumeIDs ctx req w).1 = (some resp, some err) ∧
      resp.VolumeIDs = [] ∧ err.code = Code.Unimplemented) ∧
    (p.GetVolumeIDs ctx req w).1.2 ≠ none ∧
    invocations w (p.GetVolumeIDs ctx req w).2 = [] ∧
    (p.GetVolumeIDs ctx req w).2.backend = w.backend := by
  refine ⟨⟨{ VolumeIDs := [] }, statusError Code.Unimplemented "", rfl, rfl, rfl⟩, ?_, ?_, rfl⟩
  · simp [MachinePlugin.GetVolumeIDs]
  · simp [MachinePlugin.GetVolumeIDs, invocations]

/-! ## Failures -/

/-- C2: for each of CreateMachine, DeleteMachine, GetMachineStatus and
ListMachines, when decoding the request's MachineClass and Secret fails with
the error `e`, the operation returns no response together with `e` itself,
and no SPI invocation is made during the call (the world is left as it was). -/
theorem decode_failure_precedes_spi {σ : Type} (p : MachinePlugin σ) (x : Externals)
    (ctx : Context) (w : World σ) :
    (∀ (req : CreateMachineRequest) (e : StatusError),
      x.decodeProviderSpecAndSecret req.MachineClass req.Secret = .error e →
        p.CreateMachine x ctx req w = ((none, some e), w) ∧
        invocations w (p.CreateMachine x ctx req w).2 = []) ∧
    (∀ (req : DeleteMachineRequest) (e : StatusError),
      x.decodeProviderSpecAndSecret req.MachineClass req.Secret = .error e →
        p.DeleteMachine x ctx req w = ((none, some e), w) ∧
        invocations w (p.DeleteMachine x ctx req w).2 = []) ∧
    (∀ (req : GetMachineStatusRequest) (e : StatusError),
      x.decodeProviderSpecAndSecret req.MachineClass req.Secret = .error e →
        p.GetMachineStatus x ctx req w = ((none, some e), w) ∧
        invocations w (p.GetMachineStatus x ctx req w).2 = []) ∧
    (∀ (req : ListMachinesRequest) (e : StatusError),
      x.decodeProviderSpecAndSecret req.MachineClass req.Secret = .error e →
        p.ListMachines x ctx req w = ((none, some e), w) ∧
        invocations w (p.ListMachines x ctx req w).2 = []) := by
  refine ⟨?_, ?_, ?_, ?_⟩ <;> intro req e hdec
  · have h : p.CreateMachine x ctx req w = ((none, some e), w) := by
      simp [MachinePlugin.CreateMachine, hdec]
    exact ⟨h, by rw [h]; exact invocations_self w⟩
  · have h : p.DeleteMachine x ctx req w = ((none, some e), w) := by
      simp [MachinePlugin.DeleteMachine, hdec]
    exact ⟨h, by rw [h]; exact invocations_self w⟩
  · have h : p.GetMachineStatus x ctx req w = ((none, some e), w) := by
      simp [MachinePlugin.GetMachineStatus, hdec]
    exact ⟨h, by rw [h]; exact invocations_self w⟩
  · have h : p.ListMachines x ctx req w = ((none, some e), w) := by
      simp [MachinePlugin.ListMachines, hdec]
    exact ⟨h, by rw [h]; exact invocations_self w⟩

/-- A MachineClass with an empty provider spec, against a store that holds "vm-1". -/
theorem decode_failure_precedes_spi_witness :
    ((storePlugin.CreateMachine sampleExternals sampleContext createMalformed storeWithVm1).1 =
        (none, some emptySpecError) ∧
      invocations storeWithVm1
        (storePlugin.CreateMachine sampleExternals sampleContext createMalformed
          storeWithVm1).2 = []) ∧
    ((storePlugin.DeleteMachine sampleExternals sampleContext deleteMalformed storeWithVm1).1 =
        (none, some emptySpecError) ∧
      invocations storeWithVm1
        (storePlugin.DeleteMachine sampleExternals sampleContext deleteMalformed
          storeWithVm1).2 = []) ∧
    ((storePlugin.GetMachineStatus sampleExternals sampleContext statusMalformed
          storeWithVm1).1 = (none, some emptySpecError) ∧
      invocations storeWithVm1
        (storePlugin.GetMachineStatus sampleExternals sampleContext statusMalformed
          storeWithVm1).2 = []) ∧
    ((storePlugin.ListMachines sampleExternals sampleContext listMalformed storeWithVm1).1 =
        (none, some emptySpecError) ∧
      invocations storeWithVm1
        (storePlugin.ListMachines sampleExternals sampleContext listMalformed
          storeWithVm1).2 = []) :=
  have h := decode_failure_precedes_spi storePlugin sampleExternals sampleContext storeWithVm1
  ⟨⟨congrArg Prod.fst (h.1 createMalformed emptySpecError rfl).1,
      (h.1 createMalformed emptySpecError rfl).2⟩,
   ⟨congrArg Prod.fst (h.2.1 deleteMalformed emptySpecError rfl).1,
      (h.2.1 deleteMalformed emptySpecError rfl).2⟩,
   ⟨congrArg Prod.fst (h.2.2.1 statusMalformed emptySpecError rfl).1,
      (h.2.2.1 statusMalformed emptySpecError rfl).2⟩,
   ⟨congrArg Prod.fst (h.2.2.2 listMalformed emptySpecError rfl).1,
      (h.2.2.2 listMalformed emptySpecError rfl).2⟩⟩

/-- C4: when the request decodes and the SPI's GetMachineStatus reports an
error classified NotFound (no matching VM), GetMachineStatus returns no
response and an error classified NotFound, not Internal and not Unknown. -/
theorem getMachineStatus_not_found {σ : Type} (p : MachinePlugin σ) (x : Externals)
    (ctx : Context) (req : GetMachineStatusRequest) (w : World σ) (spec : ProviderSpec)
    (e : StatusError) (b : σ)
    (hdec : x.decodeProviderSpecAndSecret req.MachineClass req.Secret = .ok spec)
    (hspi : p.SPI.GetMachineStatus ctx req.Machine.Name req.Machine.Spec.ProviderID spec
      req.Secret w.backend = (.error e, b))
    (hcode : e.code = Code.NotFound) :
    ∃ err : StatusError,
      (p.GetMachineStatus x ctx req w).1 = (none, some err) ∧
      err.code = Code.NotFound ∧ err.code ≠ Code.Internal ∧ err.code ≠ Code.Unknown := by
  refine ⟨wrapf e ("could not get status of machine " ++ x.quote req.Machine.Name), ?_, ?_, ?_, ?_⟩
  · simp [MachinePlugin.GetMachineStatus, SPI.invokeGetMachineStatus, hdec, hspi]
  · rw [wrapf_code, hcode]
  · rw [wrapf_code, hcode]; decide
  · rw [wrapf_code, hcode]; decide

/-- The status of "vm-1" is asked of a store that holds no machine. -/
theorem getMachineStatus_not_found_witness :
    ∃ err : StatusError,
      (storePlugin.GetMachineStatus sampleExternals sampleContext statusVm1 emptyStore).1 =
        (none, some err) ∧
      err.code = Code.NotFound ∧ err.code ≠ Code.Internal ∧ err.code ≠ Code.Unknown :=
  getMachineStatus_not_found storePlugin sampleExternals sampleContext statusVm1 emptyStore
    validSpec notFoundError [] rfl rfl rfl

/-- C5: for each of CreateMachine, DeleteMachine, GetMachineStatus and
ListMachines, when the request decodes and the SPI call returns the error `e`,
the operation returns no response and an error that has the classification of
`e` and whose message contains the operation context ("could not create
machine", "could not delete machine", "could not get status of machine", each
followed by the quoted machine name; "could not list machines") as well as
the message of `e`. -/
theorem spi_failure_wrapped {σ : Type} (p : MachinePlugin σ) (x : Externals)
    (ctx : Context) (w : World σ) :
    (∀ (req : CreateMachineRequest) (spec : ProviderSpec) (e : StatusError) (b : σ),
      x.decodeProviderSpecAndSecret req.MachineClass req.Secret = .ok spec →
      p.SPI.CreateMachine ctx req.Machine.Name spec req.Secret w.backend = (.error e, b) →
      ∃ err : StatusError,
        (p.CreateMachine x ctx req w).1 = (none, some err) ∧ err.code = e.code ∧
        mentions err.msg ("could not create machine " ++ x.quote req.Machine.Name) ∧
        mentions err.msg e.msg) ∧
    (∀ (req : DeleteMachineRequest) (spec : ProviderSpec) (e : StatusError) (b : σ),
      x.decodeProviderSpecAndSecret req.MachineClass req.Secret = .ok spec →
      p.SPI.DeleteMachine ctx req.Machine.Name req.Machine.Spec.ProviderID spec req.Secret
        w.backend = (.error e, b) →
      ∃ err : StatusError,
        (p.DeleteMachine x ctx req w).1 = (none, some err) ∧ err.code = e.code ∧
        mentions err.msg ("could not delete machine " ++ x.quote req.Machine.Name) ∧
        mentions err.msg e.msg) ∧
    (∀ (req : GetMachineStatusRequest) (spec : ProviderSpec) (e : StatusError) (b : σ),
      x.decodeProviderSpecAndSecret req.MachineClass req.Secret = .ok spec →
      p.SPI.GetMachineStatus ctx req.Machine.Name req.Machine.Spec.ProviderID spec req.Secret
        w.backend = (.error e, b) →
      ∃ err : StatusError,
        (p.GetMachineStatus x ctx req w).1 = (none, some err) ∧ err.code = e.code ∧
        mentions err.msg ("could not get status of machine " ++ x.quote req.Machine.Name) ∧
        mentions err.msg e.msg) ∧
    (∀ (req : ListMachinesRequest) (spec : ProviderSpec) (e : StatusError) (b : σ),
      x.decodeProviderSpecAndSecret req.MachineClass req.Secret = .ok spec →
      p.SPI.ListMachines ctx spec req.Secret w.backend = (.error e, b) →
      ∃ err : StatusError,
        (p.ListMachines x ctx req w).1 = (none, some err) ∧ err.code = e.code ∧
        mentions err.msg "could not list machines" ∧
        mentions err.msg e.msg) := by
  refine ⟨?_, ?_, ?_, ?_⟩ <;> intro req spec e b hdec hspi
  · exact ⟨wrapf e ("could not create machine " ++ x.quote req.Machine.Name),
      by simp [MachinePlugin.CreateMachine, SPI.invokeCreateMachine, hdec, hspi],
      wrapf_code _ _, wrapf_mentions_context _ _, wrapf_mentions_original _ _⟩
  · exact ⟨wrapf e ("could not delete machine " ++ x.quote req.Machine.Name),
      by simp [MachinePlugin.DeleteMachine, SPI.invokeDeleteMachine, hdec, hspi],
      wrapf_code _ _, wrapf_mentions_context _ _, wrapf_mentions_original _ _⟩
  · exact ⟨wrapf e ("could not get status of machine " ++ x.quote req.Machine.Name),
      by simp [MachinePlugin.GetMachineStatus, SPI.invokeGetMachineStatus, hdec, hspi],
      wrapf_code _ _, wrapf_mentions_context _ _, wrapf_mentions_original _ _⟩
  · exact ⟨wrapf e "could not list machines",
      by simp [MachinePlugin.ListMachines, SPI.invokeListMachines, hdec, hspi],
      wrapf_code _ _, wrapf_mentions_context _ _, wrapf_mentions_original _ _⟩

/-- Every operation against a backend that answers Unavailable. -/
theorem spi_failure_wrapped_witness :
    (∃ err : StatusError,
      (unreachablePlugin.CreateMachine sampleExternals sampleContext createVm1
        unreachableWorld).1 = (none, some err) ∧ err.code = Code.Unavailable ∧
      mentions err.msg ("could not create machine " ++ sampleExternals.quote "vm-1") ∧
      mentions err.msg "backend unreachable") ∧
    (∃ err : StatusError,
      (unreachablePlugin.DeleteMachine sampleExternals sampleContext deleteVm1
        unreachableWorld).1 = (none, some err) ∧ err.code = Code.Unavailable ∧
      mentions err.msg ("could not delete machine " ++ sampleExternals.quote "vm-1") ∧
      mentions err.msg "backend unreachable") ∧
    (∃ err : StatusError,
      (unreachablePlugin.GetMachineStatus sampleExternals sampleContext statusVm1
        unreachableWorld).1 = (none, some err) ∧ err.code = Code.Unavailable ∧
      mentions err.msg ("could not get status of machine " ++ sampleExternals.quote "vm-1") ∧
      mentions err.msg "backend unreachable") ∧
    (∃ err : StatusError,
      (unreachablePlugin.ListMachines sampleExternals sampleContext listValid
        unreachableWorld).1 = (none, some err) ∧ err.code = Code.Unavailable ∧
      mentions err.msg "could not list machines" ∧
      mentions err.msg "backend unreachable") :=
  have h := spi_failure_wrapped unreachablePlugin sampleExternals sampleContext unreachableWorld
  ⟨h.1 createVm1 validSpec unreachableError () rfl rfl,
   h.2.1 deleteVm1 validSpec unreachableError () rfl rfl,
   h.2.2.1 statusVm1 validSpec unreachableError () rfl rfl,
   h.2.2.2 listValid validSpec unreachableError () rfl rfl⟩

/-! ## One SPI invocation per call -/

/-- C8: for each of CreateMachine, DeleteMachine, GetMachineStatus and
ListMachines, when the request decodes, the SPI invocations made during the
call are exactly one invocation of the corresponding SPI operation and nothing
else, whatever that invocation returns. -/
theorem spi_invoked_exactly_once {σ : Type} (p : MachinePlugin σ) (x : Externals)
    (ctx : Context) (w : World σ) :
    (∀ (req : CreateMachineRequest) (spec : ProviderSpec),
      x.decodeProviderSpecAndSecret req.MachineClass req.Secret = .ok spec →
      invocations w (p.CreateMachine x ctx req w).2 =
        [SPICall.CreateMachine ctx req.Machine.Name spec req.Secret]) ∧
    (∀ (req : DeleteMachineRequest) (spec : ProviderSpec),
      x.decodeProviderSpecAndSecret req.MachineClass req.Secret = .ok spec →
      invocations w (p.DeleteMachine x ctx req w).2 =
        [SPICall.DeleteMachine ctx req.Machine.Name req.Machine.Spec.ProviderID spec
          req.Secret]) ∧
    (∀ (req : GetMachineStatusRequest) (spec : ProviderSpec),
      x.decodeProviderSpecAndSecret req.MachineClass req.Secret = .ok spec →
      invocations w (p.GetMachineStatus x ctx req w).2 =
        [SPICall.GetMachineStatus ctx req.Machine.Name req.Machine.Spec.ProviderID spec
          req.Secret]) ∧
    (∀ (req : ListMachinesRequest) (spec : ProviderSpec),
      x.decodeProviderSpecAndSecret req.MachineClass req.Secret = .ok spec →
      invocations w (p.ListMachines x ctx req w).2 =
        [SPICall.ListMachines ctx spec req.Secret]) := by
  refine ⟨?_, ?_, ?_, ?_⟩ <;> intro req spec hdec
  · rw [createMachine_world p x ctx req w spec hdec]
    exact invocations_append_one w _ _
  · rw [deleteMachine_world p x ctx req w spec hdec]
    exact invocations_append_one w _ _
  · rw [getMachineStatus_world p x ctx req w spec hdec]
    exact invocations_append_one w _ _
  · rw [listMachines_world p x ctx req w spec hdec]
    exact invocations_append_one w _ _

/-- Against an empty store the creation and the listing succeed while the
deletion and the status query fail with NotFound: one invocation each. -/
theorem spi_invoked_exactly_once_witness :
    invocations emptyStore
        (storePlugin.CreateMachine sampleExternals sampleContext createVm1 emptyStore).2 =
      [SPICall.CreateMachine sampleContext "vm-1" validSpec sampleSecret] ∧
    invocations emptyStore
        (storePlugin.DeleteMachine sampleExternals sampleContext deleteVm1 emptyStore).2 =
      [SPICall.DeleteMachine sampleContext "vm-1" "kubevirt://vm-1-abcd" validSpec
        sampleSecret] ∧
    invocations emptyStore
        (storePlugin.GetMachineStatus sampleExternals sampleContext statusVm1 emptyStore).2 =
      [SPICall.GetMachineStatus sampleContext "vm-1" "kubevirt://vm-1-abcd" validSpec
        sampleSecret] ∧
    invocations emptyStore
        (storePlugin.ListMachines sampleExternals sampleContext listValid emptyStore).2 =
      [SPICall.ListMachines sampleContext validSpec sampleSecret] :=
  have h := spi_invoked_exactly_once storePlugin sampleExternals sampleContext emptyStore
  ⟨h.1 createVm1 validSpec rfl, h.2.1 deleteVm1 validSpec rfl,
   h.2.2.1 statusVm1 validSpec rfl, h.2.2.2 listValid validSpec rfl⟩

/-! ## Creation followed by a status query -/

/-- C9, as stated, fails: with an SPI that answers "vm-0" to the creation and
"vm-1" to the status query that follows, both operations succeed and the
ProviderID of the status response differs from the one CreateMachine returned. -/
theorem create_then_status_differs :
    ∃ (created : CreateMachineResponse) (observed : GetMachineStatusResponse),
      (numberingPlugin.CreateMachine sampleExternals sampleContext createVm1
        numberingWorld).1 = (some created, none) ∧
      (numberingPlugin.GetMachineStatus sampleExternals sampleContext statusNumberedVm1
        (numberingPlugin.CreateMachine sampleExternals sampleContext createVm1
          numberingWorld).2).1 = (some observed, none) ∧
      created.ProviderID = "vm-0" ∧ observed.ProviderID = "vm-1" ∧
      observed.ProviderID ≠ created.ProviderID :=
  ⟨{ ProviderID := "vm-0", NodeName := "vm-1", LastKnownState := "Created vm-0" },
   { ProviderID := "vm-1", NodeName := "vm-1" }, rfl, rfl, rfl, rfl, by decide⟩

/-- C9, amended: when the request decodes, the SPI's CreateMachine returns the
provider ID `id` without error, and the SPI's GetMachineStatus, asked about
the same machine on the backend that creation left, returns `id` without
error, then CreateMachine followed immediately by GetMachineStatus for the
same machine, MachineClass and Secret both succeed and the status response
carries the ProviderID that CreateMachine returned. -/
theorem create_then_status_agree {σ : Type} (p : MachinePlugin σ) (x : Externals)
    (ctx : Context) (reqC : CreateMachineRequest) (reqS : GetMachineStatusRequest)
    (w : World σ) (spec : ProviderSpec) (id : String) (b1 b2 : σ)
    (hname : reqS.Machine.Name = reqC.Machine.Name)
    (hclass : reqS.MachineClass = reqC.MachineClass)
    (hsecret : reqS.Secret = reqC.Secret)
    (hdec : x.decodeProviderSpecAndSecret reqC.MachineClass reqC.Secret = .ok spec)
    (hcreate : p.SPI.CreateMachine ctx reqC.Machine.Name spec reqC.Secret w.backend =
      (.ok id, b1))
    (hstatus : p.SPI.GetMachineStatus ctx reqC.Machine.Name reqS.Machine.Spec.ProviderID spec
      reqC.Secret b1 = (.ok id, b2)) :
    ∃ (created : CreateMachineResponse) (observed : GetMachineStatusResponse),
      (p.CreateMachine x ctx reqC w).1 = (some created, none) ∧
      (p.GetMachineStatus x ctx reqS (p.CreateMachine x ctx reqC w).2).1 =
        (some observed, none) ∧
      created.ProviderID = id ∧ observed.ProviderID = created.ProviderID := by
  have hw := createMachine_world p x ctx reqC w spec hdec
  rw [hcreate] at hw
  refine ⟨{ ProviderID := id, NodeName := reqC.Machine.Name,
            LastKnownState := "Created " ++ id },
          { ProviderID := id, NodeName := reqS.Machine.Name }, ?_, ?_, rfl, rfl⟩
  · simp [MachinePlugin.CreateMachine, SPI.invokeCreateMachine, hdec, hcreate]
  · rw [hw]
    simp [MachinePlugin.GetMachineStatus, SPI.invokeGetMachineStatus, hname, hclass, hsecret,
      hdec, hstatus]

/-- The store-backed SPI: "vm-1" is created in an empty store and then queried. -/
theorem create_then_status_agree_witness :
    ∃ (created : CreateMachineResponse) (observed : GetMachineStatusResponse),
      (storePlugin.CreateMachine sampleExternals sampleContext createVm1 emptyStore).1 =
        (some created, none) ∧
      (storePlugin.GetMachineStatus sampleExternals sampleContext statusVm1
        (storePlugin.CreateMachine sampleExternals sampleContext createVm1 emptyStore).2).1 =
        (some observed, none) ∧
      created.ProviderID = "kubevirt://vm-1-abcd" ∧
      observed.ProviderID = created.ProviderID :=
  create_then_status_agree storePlugin sampleExternals sampleContext createVm1 statusVm1
    emptyStore validSpec "kubevirt://vm-1-abcd" [("kubevirt://vm-1-abcd", "vm-1")]
    [("kubevirt://vm-1-abcd", "vm-1")] rfl rfl rfl rfl rfl rfl

end Kubevirt
